import Mathlib

/-!
# Verification of the storycraftr document pipeline

Shallow embedding of `storycraftr/utils/markdown.py`,
`storycraftr/utils/core.py` and `storycraftr/agent/story/chapters.py`.

The filesystem is modelled as a partial map from path strings to file
contents (`FS`). Python exceptions are modelled with `Except PyErr` /
`Option`; functions that mutate the filesystem take and return an `FS`.
The model client (`create_message`) is passed in as an explicit function
so that its success and failure cases can be analysed.
-/

/-- Python exceptions that the embedded code can raise. -/
inductive PyErr where
  | fileNotFound (path : String)
  | jsonDecode
  | keyError (k : String)
  | upstream (msg : String)
  deriving DecidableEq, Repr

/-- The filesystem: a partial map from absolute path to file content. -/
def FS : Type := String → Option String

/-- Point update of the filesystem (writing a file). -/
def FS.update (fs : FS) (p : String) (v : String) : FS :=
  fun q => if q = p then some v else fs q

theorem FS.update_same (fs : FS) (p v : String) : fs.update p v p = some v := by
  simp [FS.update]

theorem FS.update_other (fs : FS) (p v q : String) (h : q ≠ p) :
    fs.update p v q = fs q := by
  simp [FS.update, h]

/-- `Path.with_suffix(file_path.suffix + '.bak')` replaces the last
suffix of the name by the old suffix with `.bak` appended, which nets out
to appending `.bak` to the whole path. -/
def backup_path (p : String) : String := p ++ ".bak"

/-- Embeds `save_to_markdown(file_path, content, create_backup)`:
if a backup is requested and the file exists, its current content is
first copied to the backup path (`shutil.copy2`, overwriting any prior
backup), then the new content is written verbatim. -/
def save_to_markdown (file_path : String) (content : String)
    (create_backup : Bool) (fs : FS) : FS :=
  let fs1 : FS :=
    match fs file_path with
    | some old => if create_backup then fs.update (backup_path file_path) old else fs
    | none => fs
  fs1.update file_path content

/-- Embeds `append_to_markdown(file_path, content)`: raises
`FileNotFoundError` when the file is absent, else appends the content
followed by a single newline. -/
def append_to_markdown (file_path : String) (content : String) (fs : FS) :
    Except PyErr FS :=
  match fs file_path with
  | none => .error (.fileNotFound file_path)
  | some old => .ok (fs.update file_path (old ++ content ++ "\n"))

/-- Embeds `read_from_markdown(file_path)`: raises `FileNotFoundError`
when the file is absent, else returns the full content. -/
def read_from_markdown (file_path : String) (fs : FS) : Except PyErr String :=
  match fs file_path with
  | none => .error (.fileNotFound file_path)
  | some c => .ok c

theorem backup_path_ne (p : String) : backup_path p ≠ p := by
  intro h
  have hlen := congrArg String.length h
  rw [backup_path, String.length_append] at hlen
  have h4 : ".bak".length = 4 := rfl
  omega

/-- C3: after two successive backed-up saves of `c1` then `c2` to the same
path, the backup file holds `c1` and the primary file holds `c2`; a third
save of `c3` replaces the backup with `c2`, so only one generation of
history is kept. -/
theorem save_backup_invariant (fs : FS) (p c1 c2 c3 : String) :
    (save_to_markdown p c2 true (save_to_markdown p c1 true fs)
        (backup_path p) = some c1
      ∧ save_to_markdown p c2 true (save_to_markdown p c1 true fs) p = some c2)
      ∧ (save_to_markdown p c3 true
          (save_to_markdown p c2 true (save_to_markdown p c1 true fs))
            (backup_path p) = some c2) := by
  have hne := backup_path_ne p
  simp [save_to_markdown, FS.update, hne]

/-- C8: reading a path right after saving content `X` there returns
exactly `X`, for every filesystem, path and content. -/
theorem read_after_save (fs : FS) (p X : String) :
    read_from_markdown p (save_to_markdown p X true fs) = .ok X := by
  simp [read_from_markdown, save_to_markdown, FS.update]

/-- C9: appending to a missing file fails with `FileNotFoundError` and
produces no new filesystem; appending `B` to a file holding `A` leaves it
holding `A ++ B ++ "\n"`, other files untouched. -/
theorem append_semantics (fs : FS) (p A B : String) :
    (fs p = none → append_to_markdown p B fs = .error (.fileNotFound p))
      ∧ (fs p = some A →
          append_to_markdown p B fs = .ok (fs.update p (A ++ B ++ "\n"))) := by
  constructor
  · intro h; simp [append_to_markdown, h]
  · intro h; simp [append_to_markdown, h]

/-! ## Fragment listing and ordering (`consolidate_book_md`, lines 109-127) -/

/-- Value of a digit run, as computed by Python `int` on the matched text. -/
def digitsToNat (ds : List Char) : ℕ :=
  ds.foldl (fun n c => 10 * n + (c.toNat - '0'.toNat)) 0

/-- The first maximal digit run of a character list
(`re.findall(r"\d+", name)[0]`). -/
def firstDigitRun : List Char → List Char
  | [] => []
  | c :: cs => if c.isDigit then c :: cs.takeWhile Char.isDigit else firstDigitRun cs

/-- Sort key used for chapter files:
`int(re.findall(r"\d+", x.name)[0])`, the first integer appearing in the
file name. (On a name with no digit the Python code would raise; such
names never reach the sort because they do not match the pattern.) -/
def chapterKey (name : String) : ℕ := digitsToNat (firstDigitRun name.data)

/-- `re.match(r"chapter-\d+\.md", name)`: anchored at the start only, so
it succeeds exactly when the name begins with `chapter-`, then a nonempty
digit run, then `.md` — anything may follow. The digit run is maximal
(`\d+` is greedy, and backtracking cannot help because `.` is not a
digit). -/
def chapterMatch (name : String) : Bool :=
  let s := name.data
  let rest := s.drop 8
  let ds := rest.takeWhile Char.isDigit
  decide (s.take 8 = "chapter-".data) && !ds.isEmpty &&
    decide ((rest.drop ds.length).take 3 = ".md".data)

/-- The comparison Python's stable `sorted(..., key=...)` uses. -/
def chapterLe (a b : String) : Prop := chapterKey a ≤ chapterKey b

instance : DecidableRel chapterLe := fun _ _ => Nat.decLe _ _

instance : IsTotal String chapterLe := ⟨fun _ _ => Nat.le_total _ _⟩

instance : IsTrans String chapterLe := ⟨fun _ _ _ => Nat.le_trans⟩

/-- The ordered fragment list built by `consolidate_book_md` from the
names present in the chapters directory: cover, then back-cover (each if
present), then the files matching the chapter pattern stably sorted by
`chapterKey` (Python's `sorted` is stable, as is `List.insertionSort`),
then the epilogue if present. `listing` is the directory listing in
filesystem iteration order (`iterdir`). -/
def files_to_process (listing : List String) : List String :=
  (if "cover.md" ∈ listing then ["cover.md"] else []) ++
    (if "back-cover.md" ∈ listing then ["back-cover.md"] else []) ++
      List.insertionSort chapterLe (listing.filter chapterMatch) ++
        (if "epilogue.md" ∈ listing then ["epilogue.md"] else [])

/-- Witness for `append_semantics` at a concrete filesystem. -/
theorem append_semantics_witness :
    ((fun _ => (none : Option String)) : FS) "a.md" = none
      ∧ append_to_markdown "a.md" "B" (fun _ => none)
          = .error (.fileNotFound "a.md") := by
  refine ⟨rfl, ?_⟩
  exact (append_semantics (fun _ => none) "a.md" "A" "B").1 rfl

/-- Key-distinctness is symmetric, so it transports along permutations. -/
theorem keyNe_symm {a b : String} (h : chapterKey a ≠ chapterKey b) :
    chapterKey b ≠ chapterKey a :=
  fun hba => h hba.symm

/-- A stable sort's output is fully determined by the multiset of inputs
once the sort keys are pairwise distinct. -/
theorem insertionSort_eq_of_perm (l1 l2 : List String) (hp : l1.Perm l2)
    (hinj : l1.Pairwise fun a b => chapterKey a ≠ chapterKey b) :
    List.insertionSort chapterLe l1 = List.insertionSort chapterLe l2 := by
  haveI : IsAntisymm String (fun a b => chapterKey a < chapterKey b) :=
    ⟨fun _ _ h1 h2 => absurd h2 (Nat.lt_asymm h1)⟩
  have hperm1 := List.perm_insertionSort chapterLe l1
  have hperm2 := List.perm_insertionSort chapterLe l2
  have hs1 := List.sorted_insertionSort chapterLe l1
  have hs2 := List.sorted_insertionSort chapterLe l2
  have hinj2 : l2.Pairwise fun a b => chapterKey a ≠ chapterKey b :=
    (hp.pairwise_iff keyNe_symm).mp hinj
  have hd1 := (hperm1.pairwise_iff keyNe_symm).mpr hinj
  have hd2 := (hperm2.pairwise_iff keyNe_symm).mpr hinj2
  have hstrict1 :
      (List.insertionSort chapterLe l1).Pairwise
        (fun a b => chapterKey a < chapterKey b) :=
    List.Pairwise.imp₂ (fun _ _ hle hne => Nat.lt_of_le_of_ne hle hne) hs1 hd1
  have hstrict2 :
      (List.insertionSort chapterLe l2).Pairwise
        (fun a b => chapterKey a < chapterKey b) :=
    List.Pairwise.imp₂ (fun _ _ hle hne => Nat.lt_of_le_of_ne hle hne) hs2 hd2
  exact List.eq_of_perm_of_sorted (hperm1.trans (hp.trans hperm2.symm))
    hstrict1 hstrict2

theorem chapterMatch_cover : chapterMatch "cover.md" = false := by decide

theorem chapterMatch_back_cover : chapterMatch "back-cover.md" = false := by
  decide

theorem chapterMatch_epilogue : chapterMatch "epilogue.md" = false := by decide

/-- Within the consolidated order, the chapter files are exactly the
stably-sorted chapter matches. -/
theorem filter_files_to_process (l : List String) :
    (files_to_process l).filter chapterMatch
      = List.insertionSort chapterLe (l.filter chapterMatch) := by
  have hall : List.filter chapterMatch
      (List.insertionSort chapterLe (l.filter chapterMatch))
      = List.insertionSort chapterLe (l.filter chapterMatch) := by
    apply List.filter_eq_self.mpr
    intro a ha
    have := (List.mem_insertionSort chapterLe).mp ha
    exact (List.mem_filter.mp this).2
  by_cases hc : "cover.md" ∈ l <;> by_cases hb : "back-cover.md" ∈ l <;>
    by_cases he : "epilogue.md" ∈ l <;>
      simp [files_to_process, hc, hb, he, List.filter_append, hall,
        chapterMatch_cover, chapterMatch_back_cover, chapterMatch_epilogue]

/-- C1 (amended): the consolidated order is cover, back-cover, chapter
files stably sorted ascending by the first integer in their name, then
epilogue; when the parsed chapter integers are pairwise distinct the
order does not depend on the filesystem iteration order, and the spec's
example listing produces exactly the documented order. (With duplicate
parsed integers, e.g. `chapter-1.md` vs `chapter-01.md`, stable sorting
makes ties follow iteration order — see the counterexample.) -/
theorem consolidation_order (l1 l2 : List String) (hp : l1.Perm l2)
    (hinj : (l1.filter chapterMatch).Pairwise
      fun a b => chapterKey a ≠ chapterKey b) :
    files_to_process l1 = files_to_process l2
      ∧ List.Sorted chapterLe ((files_to_process l1).filter chapterMatch)
      ∧ files_to_process
          ["chapter-3.md", "chapter-1.md", "chapter-10.md", "chapter-2.md",
            "cover.md", "epilogue.md"]
          = ["cover.md", "chapter-1.md", "chapter-2.md", "chapter-3.md",
              "chapter-10.md", "epilogue.md"] := by
  refine ⟨?_, ?_, by decide⟩
  · have hchap := insertionSort_eq_of_perm (l1.filter chapterMatch)
      (l2.filter chapterMatch) (hp.filter chapterMatch) hinj
    simp only [files_to_process, hp.mem_iff, hchap]
  · rw [filter_files_to_process]
    exact List.sorted_insertionSort chapterLe _

/-- Witness for `consolidation_order` on a concrete scrambled listing. -/
theorem consolidation_order_witness :
    (["chapter-2.md", "cover.md", "chapter-1.md"] : List String).Perm
        ["cover.md", "chapter-1.md", "chapter-2.md"]
      ∧ ((["chapter-2.md", "cover.md", "chapter-1.md"] : List String).filter
          chapterMatch).Pairwise (fun a b => chapterKey a ≠ chapterKey b)
      ∧ files_to_process ["chapter-2.md", "cover.md", "chapter-1.md"]
          = files_to_process ["cover.md", "chapter-1.md", "chapter-2.md"] := by
  refine ⟨by decide, by decide, ?_⟩
  exact (consolidation_order _ _ (by decide) (by decide)).1

/-! ## The consolidation run (`consolidate_book_md`, lines 140-187) -/

/-- The literal written after every fragment
(`consolidated_md.write("\n\\newpage\n")`). -/
def pageBreak : String := "\n\\newpage\n"

/-- Concatenation of a list of strings (spec-side helper for stating the
output-file content). -/
def concatAll : List String → String
  | [] => ""
  | s :: rest => s ++ concatAll rest

/-- Observable outcome of `consolidate_book_md`: the output path, the
contents sent to the model client in order, the bytes written to the
output file, and `some e` when the run aborted with exception `e`. -/
structure ConsolidateResult where
  outputPath : String
  calls : List String
  output : String
  result : Option PyErr
  deriving DecidableEq, Repr

/-- The fragment loop of `consolidate_book_md`: for each file in order,
read it (a read failure raises), translate through the model client when
requested (a client failure raises, aborting before any later fragment is
read or sent), and write the resulting content followed by the page-break
marker. Returns the client calls made, the output written so far, and
the exception, if any, that aborted the loop. -/
def consolidateLoop (client : String → Except PyErr String)
    (contentOf : String → Option String) (translate : Bool) :
    List String → List String × String × Option PyErr
  | [] => ([], "", none)
  | f :: rest =>
    match contentOf f with
    | none => ([], "", some (.fileNotFound f))
    | some content =>
      if translate then
        match client content with
        | .error e => ([content], "", some e)
        | .ok t =>
          let r := consolidateLoop client contentOf translate rest
          (content :: r.1, t ++ pageBreak ++ r.2.1, r.2.2)
      else
        let r := consolidateLoop client contentOf translate rest
        (r.1, content ++ pageBreak ++ r.2.1, r.2.2)

/-- Embeds `consolidate_book_md(book_path, primary_language, translate)`.
`listing` is the chapters directory: file names (in filesystem iteration
order) with their contents. The output file name encodes the target
language when translating, else the primary language. -/
def consolidate_book_md (book_path : String)
    (listing : List (String × String)) (primary_language : String)
    (translate : Option String) (client : String → Except PyErr String) :
    ConsolidateResult :=
  let output_file_name :=
    match translate with
    | none => "book-" ++ primary_language ++ ".md"
    | some t => "book-" ++ t ++ ".md"
  let files := files_to_process (listing.map Prod.fst)
  let r := consolidateLoop client (fun f => listing.lookup f)
    translate.isSome files
  { outputPath := book_path ++ "/book/" ++ output_file_name
    calls := r.1
    output := r.2.1
    result := r.2.2 }

/-- Every file the consolidation processes comes from the directory
listing. -/
theorem mem_files_to_process {l : List String} {f : String}
    (hf : f ∈ files_to_process l) : f ∈ l := by
  rw [files_to_process] at hf
  rw [List.mem_append] at hf
  rcases hf with hf | hf
  · rw [List.mem_append] at hf
    rcases hf with hf | hf
    · rw [List.mem_append] at hf
      rcases hf with hf | hf
      · split at hf
        · simp only [List.mem_singleton] at hf
          exact hf ▸ ‹"cover.md" ∈ l›
        · simp at hf
      · split at hf
        · simp only [List.mem_singleton] at hf
          exact hf ▸ ‹"back-cover.md" ∈ l›
        · simp at hf
    · rw [List.mem_insertionSort] at hf
      exact (List.mem_filter.mp hf).1
  · split at hf
    · simp only [List.mem_singleton] at hf
      exact hf ▸ ‹"epilogue.md" ∈ l›
    · simp at hf

/-- A name present among the listing's keys can be read
(`chapter_file.open("r")` succeeds for listed files). -/
theorem lookup_of_mem_keys {listing : List (String × String)} {f : String}
    (h : f ∈ listing.map Prod.fst) : ∃ c, listing.lookup f = some c := by
  induction listing with
  | nil => simp at h
  | cons p rest ih =>
    obtain ⟨k, v⟩ := p
    simp only [List.map_cons, List.mem_cons] at h
    by_cases hf : f = k
    · exact ⟨v, by simp [List.lookup, hf]⟩
    · obtain ⟨c, hc⟩ := ih (h.resolve_left hf)
      have hbeq : (f == k) = false := beq_eq_false_iff_ne.mpr hf
      exact ⟨c, by simp [List.lookup, hbeq, hc]⟩

/-- Without translation the loop writes each fragment's raw content plus
the page-break marker, calls the client never, and succeeds. -/
theorem consolidateLoop_no_translate (client : String → Except PyErr String)
    (contentOf : String → Option String) (files : List String)
    (h : ∀ f ∈ files, ∃ c, contentOf f = some c) :
    consolidateLoop client contentOf false files
      = ([], concatAll (files.map fun f => (contentOf f).getD "" ++ pageBreak),
          none) := by
  induction files with
  | nil => rfl
  | cons f rest ih =>
    obtain ⟨c, hc⟩ := h f (List.mem_cons_self f rest)
    have ihr := ih fun g hg => h g (List.mem_cons_of_mem f hg)
    simp [consolidateLoop, hc, ihr, concatAll, String.append_assoc]

/-- With translation and an always-succeeding client, each fragment's
translation replaces its content, in order. -/
theorem consolidateLoop_translate_ok (tr : String → String)
    (contentOf : String → Option String) (files : List String)
    (h : ∀ f ∈ files, ∃ c, contentOf f = some c) :
    consolidateLoop (fun c => .ok (tr c)) contentOf true files
      = (files.map fun f => (contentOf f).getD "",
          concatAll (files.map fun f => tr ((contentOf f).getD "") ++ pageBreak),
          none) := by
  induction files with
  | nil => rfl
  | cons f rest ih =>
    obtain ⟨c, hc⟩ := h f (List.mem_cons_self f rest)
    have ihr := ih fun g hg => h g (List.mem_cons_of_mem f hg)
    simp [consolidateLoop, hc, ihr, concatAll, String.append_assoc]

/-- A client failure on one fragment stops the loop: exactly the
fragments up to and including the failing one are sent, and the failure
is the loop's result. -/
theorem consolidateLoop_translate_abort
    (client : String → Except PyErr String)
    (contentOf : String → Option String) (pre : List String) (bad : String)
    (post : List String) (e : PyErr)
    (hpre : ∀ f ∈ pre, ∃ c t, contentOf f = some c ∧ client c = .ok t)
    (hbad : ∃ c, contentOf bad = some c ∧ client c = .error e) :
    (consolidateLoop client contentOf true (pre ++ bad :: post)).1
        = (pre ++ [bad]).map (fun f => (contentOf f).getD "")
      ∧ (consolidateLoop client contentOf true (pre ++ bad :: post)).2.2
        = some e := by
  induction pre with
  | nil =>
    obtain ⟨c, hc, he⟩ := hbad
    simp [consolidateLoop, hc, he]
  | cons f fs ih =>
    obtain ⟨c, t, hc, ht⟩ := hpre f (List.mem_cons_self f fs)
    have ihr := ih fun g hg => hpre g (List.mem_cons_of_mem f hg)
    simp [consolidateLoop, hc, ht, ihr]

/-- C2: without a target language the output file's content is exactly
the concatenation, in the defined fragment order, of each fragment's raw
content followed by the page-break marker; the run succeeds, never calls
the model client, and returns the `book-<primary>.md` output path. -/
theorem consolidate_untranslated (book_path : String)
    (listing : List (String × String)) (primary : String)
    (client : String → Except PyErr String) :
    consolidate_book_md book_path listing primary none client
      = { outputPath := book_path ++ "/book/" ++ ("book-" ++ primary ++ ".md")
          calls := []
          output := concatAll ((files_to_process (listing.map Prod.fst)).map
            fun f => (listing.lookup f).getD "" ++ pageBreak)
          result := none } := by
  have h : ∀ f ∈ files_to_process (listing.map Prod.fst),
      ∃ c, listing.lookup f = some c :=
    fun f hf => lookup_of_mem_keys (mem_files_to_process hf)
  simp only [consolidate_book_md, Option.isSome_none,
    consolidateLoop_no_translate client _ _ h]

/-- C7: with translation requested, a successful run substitutes each
fragment's translated text, same order and page-break behaviour, writing
to `book-<target>.md`; and if the client fails on some fragment, exactly
the fragments up to and including that one were sent — no later fragment
is processed — and the run as a whole fails with that exception. -/
theorem consolidate_translation (book_path : String)
    (listing : List (String × String)) (primary lang : String)
    (tr : String → String) (client : String → Except PyErr String)
    (pre : List String) (bad : String) (post : List String) (e : PyErr) :
    (consolidate_book_md book_path listing primary (some lang)
        (fun c => .ok (tr c))
      = { outputPath := book_path ++ "/book/" ++ ("book-" ++ lang ++ ".md")
          calls := (files_to_process (listing.map Prod.fst)).map
            fun f => (listing.lookup f).getD ""
          output := concatAll ((files_to_process (listing.map Prod.fst)).map
            fun f => tr ((listing.lookup f).getD "") ++ pageBreak)
          result := none })
    ∧ (files_to_process (listing.map Prod.fst) = pre ++ bad :: post →
        (∀ f ∈ pre, ∃ t, client ((listing.lookup f).getD "") = .ok t) →
        client ((listing.lookup bad).getD "") = .error e →
        (consolidate_book_md book_path listing primary (some lang)
            client).calls
            = (pre ++ [bad]).map (fun f => (listing.lookup f).getD "")
          ∧ (consolidate_book_md book_path listing primary (some lang)
              client).result = some e) := by
  have hread : ∀ f ∈ files_to_process (listing.map Prod.fst),
      ∃ c, listing.lookup f = some c :=
    fun f hf => lookup_of_mem_keys (mem_files_to_process hf)
  constructor
  · simp only [consolidate_book_md, Option.isSome_some,
      consolidateLoop_translate_ok tr _ _ hread]
  · intro hsplit hpre hbad
    have hpre' : ∀ f ∈ pre, ∃ c t, listing.lookup f = some c
        ∧ client c = .ok t := by
      intro f hf
      have hfmem : f ∈ files_to_process (listing.map Prod.fst) := by
        rw [hsplit]; exact List.mem_append_left _ hf
      obtain ⟨c, hc⟩ := hread f hfmem
      obtain ⟨t, ht⟩ := hpre f hf
      rw [hc] at ht ⊢
      exact ⟨c, t, rfl, ht⟩
    have hbad' : ∃ c, listing.lookup bad = some c ∧ client c = .error e := by
      have hbmem : bad ∈ files_to_process (listing.map Prod.fst) := by
        rw [hsplit]; exact List.mem_append_right _ (List.mem_cons_self _ _)
      obtain ⟨c, hc⟩ := hread bad hbmem
      rw [hc] at hbad
      exact ⟨c, hc, hbad⟩
    have habort := consolidateLoop_translate_abort client
      (fun f => listing.lookup f) pre bad post e hpre' hbad'
    constructor
    · simpa only [consolidate_book_md, Option.isSome_some, hsplit]
        using habort.1
    · simpa only [consolidate_book_md, Option.isSome_some, hsplit]
        using habort.2

/-- Witness for `consolidate_translation`: four chapters, the client
fails on the second fragment's content; only fragments 1 and 2 are sent
and the run fails. -/
theorem consolidate_translation_witness :
    files_to_process
        ([("chapter-1.md", "c1"), ("chapter-2.md", "c2"),
          ("chapter-3.md", "c3"), ("chapter-4.md", "c4")].map Prod.fst)
        = ["chapter-1.md"] ++ "chapter-2.md" :: ["chapter-3.md", "chapter-4.md"]
      ∧ (consolidate_book_md "b"
          [("chapter-1.md", "c1"), ("chapter-2.md", "c2"),
            ("chapter-3.md", "c3"), ("chapter-4.md", "c4")] "en" (some "fr")
          (fun c => if c = "c2" then .error (.upstream "boom")
            else .ok ("T" ++ c))).calls
          = (["chapter-1.md"] ++ ["chapter-2.md"]).map
              (fun f => (([("chapter-1.md", "c1"), ("chapter-2.md", "c2"),
                ("chapter-3.md", "c3"), ("chapter-4.md", "c4")]).lookup f).getD "")
      ∧ (consolidate_book_md "b"
          [("chapter-1.md", "c1"), ("chapter-2.md", "c2"),
            ("chapter-3.md", "c3"), ("chapter-4.md", "c4")] "en" (some "fr")
          (fun c => if c = "c2" then .error (.upstream "boom")
            else .ok ("T" ++ c))).result = some (.upstream "boom") := by
  have h := (consolidate_translation "b"
    [("chapter-1.md", "c1"), ("chapter-2.md", "c2"),
      ("chapter-3.md", "c3"), ("chapter-4.md", "c4")] "en" "fr" id
    (fun c => if c = "c2" then .error (.upstream "boom") else .ok ("T" ++ c))
    ["chapter-1.md"] "chapter-2.md" ["chapter-3.md", "chapter-4.md"]
    (.upstream "boom")).2 (by decide)
    (by
      intro f hf
      simp only [List.mem_singleton] at hf
      subst hf
      exact ⟨"Tc1", rfl⟩)
    rfl
  exact ⟨by decide, h.1, h.2⟩

/-- A digit run followed by a non-digit boundary is what `takeWhile`
extracts. -/
theorem takeWhile_digit_append (ds tl : List Char)
    (hds : ∀ c ∈ ds, c.isDigit = true)
    (htl : tl.takeWhile Char.isDigit = []) :
    (ds ++ tl).takeWhile Char.isDigit = ds := by
  induction ds with
  | nil => simpa using htl
  | cons c cs ih =>
    simp only [List.cons_append, List.takeWhile_cons,
      hds c (List.mem_cons_self c cs), if_true]
    rw [ih fun d hd => hds d (List.mem_cons_of_mem c hd)]

/-- `firstDigitRun` skips a digit-free prelude and returns the first
maximal digit run. -/
theorem firstDigitRun_append (pre ds tl : List Char)
    (hpre : ∀ c ∈ pre, c.isDigit = false) (hne : ds ≠ [])
    (hds : ∀ c ∈ ds, c.isDigit = true)
    (htl : tl.takeWhile Char.isDigit = []) :
    firstDigitRun (pre ++ (ds ++ tl)) = ds := by
  induction pre with
  | nil =>
    cases ds with
    | nil => exact absurd rfl hne
    | cons d dsx =>
      simp only [List.nil_append, List.cons_append, firstDigitRun]
      rw [if_pos (hds d (List.mem_cons_self d dsx))]
      simp only [List.append_eq]
      rw [takeWhile_digit_append dsx tl
        (fun c hc => hds c (List.mem_cons_of_mem d hc)) htl]
  | cons p ps ih =>
    simp only [List.cons_append, firstDigitRun]
    rw [if_neg (by simp [hpre p (List.mem_cons_self p ps)])]
    exact ih fun c hc => hpre c (List.mem_cons_of_mem p hc)

/-- C10: the chapter pattern is anchored at the start only, so any name
that strictly extends `chapter-<digits>.md` is also selected, and its
sort key is the integer given by those first digits; concretely,
`chapter-1.md.bak` is consolidated, ordered at key 1 (before
`chapter-2.md`, tied with `chapter-1.md`). -/
theorem chapter_pattern_unanchored :
    (∀ (ds tail : String), ds.data ≠ [] →
        (∀ c ∈ ds.data, c.isDigit = true) →
        chapterMatch ("chapter-" ++ ds ++ ".md" ++ tail) = true
          ∧ chapterKey ("chapter-" ++ ds ++ ".md" ++ tail)
              = digitsToNat ds.data)
      ∧ files_to_process
          ["cover.md", "chapter-2.md", "chapter-1.md.bak", "chapter-1.md"]
          = ["cover.md", "chapter-1.md.bak", "chapter-1.md", "chapter-2.md"] := by
  refine ⟨?_, by decide⟩
  intro ds tail hne hdig
  have hdata : ("chapter-" ++ ds ++ ".md" ++ tail).data
      = "chapter-".data ++ (ds.data ++ (".md".data ++ tail.data)) := by
    simp [List.append_assoc]
  have h8 : ("chapter-".data).length = 8 := rfl
  have htake : ("chapter-".data ++ (ds.data ++ (".md".data ++ tail.data))).take 8
      = "chapter-".data := List.take_left' h8
  have hdrop : ("chapter-".data ++ (ds.data ++ (".md".data ++ tail.data))).drop 8
      = ds.data ++ (".md".data ++ tail.data) := List.drop_left' h8
  have htl : (".md".data ++ tail.data).takeWhile Char.isDigit = [] := by
    rw [show (".md".data ++ tail.data)
        = '.' :: ('m' :: ('d' :: tail.data)) from rfl]
    rw [List.takeWhile_cons]
    simp
  have hds : (ds.data ++ (".md".data ++ tail.data)).takeWhile Char.isDigit
      = ds.data := takeWhile_digit_append _ _ hdig htl
  have hmd : ((ds.data ++ (".md".data ++ tail.data)).drop ds.data.length).take 3
      = ".md".data := by
    rw [List.drop_left]
    exact List.take_left' rfl
  constructor
  · simp only [chapterMatch, hdata, htake, hdrop, hds, hmd]
    simp [hne]
  · have hpre : ∀ c ∈ "chapter-".data, c.isDigit = false := by decide
    simp only [chapterKey, hdata]
    rw [firstDigitRun_append _ _ _ hpre hne hdig htl]

/-- Witness for `chapter_pattern_unanchored` at `chapter-1.md.bak`. -/
theorem chapter_pattern_unanchored_witness :
    ("1" : String).data ≠ []
      ∧ chapterMatch ("chapter-" ++ "1" ++ ".md" ++ ".bak") = true
      ∧ chapterKey ("chapter-" ++ "1" ++ ".md" ++ ".bak")
          = digitsToNat ("1" : String).data := by
  refine ⟨by decide, ?_, ?_⟩
  · exact (chapter_pattern_unanchored.1 "1" ".bak" (by decide) (by decide)).1
  · exact (chapter_pattern_unanchored.1 "1" ".bak" (by decide) (by decide)).2

/-! ## Content generation (`agent/story/chapters.py`) -/

/-- The prompt templates imported by `chapters.py`. Identity is by name:
`CHAPTER_PROMPT_NEW`, `CHAPTER_PROMPT_REFINE`, `COVER_PROMPT`,
`BACK_COVER_PROMPT`, `EPILOGUE_PROMPT_NEW`, `EPILOGUE_PROMPT_REFINE`. -/
inductive PromptTemplate where
  | CHAPTER_PROMPT_NEW
  | CHAPTER_PROMPT_REFINE
  | COVER_PROMPT
  | BACK_COVER_PROMPT
  | EPILOGUE_PROMPT_NEW
  | EPILOGUE_PROMPT_REFINE
  deriving DecidableEq, Repr

/-- Templates whose source name marks them as "refine content". -/
def is_refine_template : PromptTemplate → Bool
  | .CHAPTER_PROMPT_REFINE => true
  | .EPILOGUE_PROMPT_REFINE => true
  | _ => false

/-- Templates whose source name marks them as "new content". -/
def is_new_template : PromptTemplate → Bool
  | .CHAPTER_PROMPT_NEW => true
  | .EPILOGUE_PROMPT_NEW => true
  | _ => false

/-- Embeds `generate_chapter(book_path, chapter_number, prompt)`. The
model client is abstracted as a function of the selected template; its
prompt rendering (`.format`) is irrelevant to the claims. Returns the
filesystem after the call, the template that was selected, and the
call's outcome (`create_message` result; an error there aborts before
`save_to_markdown` runs). -/
def generate_chapter (book_path : String) (chapter_number : ℕ) (fs : FS)
    (client : PromptTemplate → Except PyErr String) :
    FS × PromptTemplate × Except PyErr String :=
  let file_path :=
    book_path ++ "/chapters/chapter-" ++ toString chapter_number ++ ".md"
  let content :=
    if (fs file_path).isSome then PromptTemplate.CHAPTER_PROMPT_REFINE
    else PromptTemplate.CHAPTER_PROMPT_NEW
  (match client content with
    | .error _ => fs
    | .ok chapter_content => save_to_markdown file_path chapter_content true fs,
    content, client content)

/-- Embeds `generate_cover(book_path, prompt)`: the prompt is always
built from `COVER_PROMPT` — the source makes no existence check. -/
def generate_cover (book_path : String) (fs : FS)
    (client : PromptTemplate → Except PyErr String) :
    FS × PromptTemplate × Except PyErr String :=
  let prompt_content := PromptTemplate.COVER_PROMPT
  (match client prompt_content with
    | .error _ => fs
    | .ok cover_content =>
        save_to_markdown (book_path ++ "/chapters/cover.md") cover_content
          true fs,
    prompt_content, client prompt_content)

/-- Embeds `generate_back_cover(book_path, prompt)`: always
`BACK_COVER_PROMPT`, no existence check. -/
def generate_back_cover (book_path : String) (fs : FS)
    (client : PromptTemplate → Except PyErr String) :
    FS × PromptTemplate × Except PyErr String :=
  let prompt_content := PromptTemplate.BACK_COVER_PROMPT
  (match client prompt_content with
    | .error _ => fs
    | .ok back_cover_content =>
        save_to_markdown (book_path ++ "/chapters/back-cover.md")
          back_cover_content true fs,
    prompt_content, client prompt_content)

/-- Embeds `generate_epilogue(book_path, prompt)`: selects the new or
refine epilogue template by existence of `chapters/epilogue.md`. -/
def generate_epilogue (book_path : String) (fs : FS)
    (client : PromptTemplate → Except PyErr String) :
    FS × PromptTemplate × Except PyErr String :=
  let file_path := book_path ++ "/chapters/epilogue.md"
  let content :=
    if (fs file_path).isSome then PromptTemplate.EPILOGUE_PROMPT_REFINE
    else PromptTemplate.EPILOGUE_PROMPT_NEW
  (match client content with
    | .error _ => fs
    | .ok epilogue_content =>
        save_to_markdown file_path epilogue_content true fs,
    content, client content)

/-- The content-unit kinds of the claim. -/
inductive ContentUnitKind where
  | chapter
  | cover
  | backCover
  | epilogue
  deriving DecidableEq, Repr

/-- The template each kind's generate function actually selects on a
given filesystem (chapter index 1 for the chapter kind). -/
def template_used (k : ContentUnitKind) (book_path : String) (fs : FS)
    (client : PromptTemplate → Except PyErr String) : PromptTemplate :=
  match k with
  | .chapter => (generate_chapter book_path 1 fs client).2.1
  | .cover => (generate_cover book_path fs client).2.1
  | .backCover => (generate_back_cover book_path fs client).2.1
  | .epilogue => (generate_epilogue book_path fs client).2.1

/-- C4 (amended): for chapters and the epilogue, existence of the exact
target file is the sole signal selecting the refine vs. new template;
the cover and back-cover generators have no new/refine pair at all —
they always use their single fixed template, regardless of the
filesystem. -/
theorem template_selection (book_path : String) (n : ℕ) (fs : FS)
    (client : PromptTemplate → Except PyErr String) :
    ((generate_chapter book_path n fs client).2.1
        = if (fs (book_path ++ "/chapters/chapter-" ++ toString n ++ ".md")).isSome
          then PromptTemplate.CHAPTER_PROMPT_REFINE
          else PromptTemplate.CHAPTER_PROMPT_NEW)
      ∧ ((generate_epilogue book_path fs client).2.1
          = if (fs (book_path ++ "/chapters/epilogue.md")).isSome
            then PromptTemplate.EPILOGUE_PROMPT_REFINE
            else PromptTemplate.EPILOGUE_PROMPT_NEW)
      ∧ (generate_cover book_path fs client).2.1
          = PromptTemplate.COVER_PROMPT
      ∧ (generate_back_cover book_path fs client).2.1
          = PromptTemplate.BACK_COVER_PROMPT := by
  exact ⟨rfl, rfl, rfl, rfl⟩

/-- C4 counterexample: with `chapters/cover.md` already present, the
cover generator still uses `COVER_PROMPT`, which is not a "refine
content" template (no such template exists for covers) — so template
selection is not existence-driven for every content-unit kind. -/
theorem template_selection_counterexample :
    (((fun p => if p = "b/chapters/cover.md" then some "old" else none) : FS)
        "b/chapters/cover.md").isSome = true
      ∧ template_used .cover "b"
          (fun p => if p = "b/chapters/cover.md" then some "old" else none)
          (fun _ => .ok "txt") = .COVER_PROMPT
      ∧ is_refine_template .COVER_PROMPT = false := by
  exact ⟨by decide, rfl, rfl⟩

/-- C6: when the model client call fails, the exception propagates and
the filesystem is untouched — the backup-then-overwrite sequence runs
only after a successful response. Stated for all four generators. -/
theorem no_write_on_client_failure (book_path : String) (n : ℕ) (fs : FS)
    (client : PromptTemplate → Except PyErr String) (e : PyErr) :
    ((generate_chapter book_path n fs client).2.2 = .error e →
        (generate_chapter book_path n fs client).1 = fs)
      ∧ ((generate_cover book_path fs client).2.2 = .error e →
          (generate_cover book_path fs client).1 = fs)
      ∧ ((generate_back_cover book_path fs client).2.2 = .error e →
          (generate_back_cover book_path fs client).1 = fs)
      ∧ ((generate_epilogue book_path fs client).2.2 = .error e →
          (generate_epilogue book_path fs client).1 = fs) := by
  refine ⟨?_, ?_, ?_, ?_⟩ <;>
    · intro h
      simp only [generate_chapter, generate_cover, generate_back_cover,
        generate_epilogue] at h ⊢
      rw [h]

/-- Witness for `no_write_on_client_failure` with a failing client. -/
theorem no_write_on_client_failure_witness :
    (generate_chapter "b" 1 (fun _ => none)
        (fun _ => .error (.upstream "x"))).2.2 = .error (.upstream "x")
      ∧ (generate_chapter "b" 1 (fun _ => none)
          (fun _ => .error (.upstream "x"))).1 = (fun _ => none) := by
  refine ⟨rfl, ?_⟩
  exact (no_write_on_client_failure "b" 1 (fun _ => none)
    (fun _ => .error (.upstream "x")) (.upstream "x")).1 rfl

/-! ## Configuration loading (`utils/core.py`, `load_book_config`) -/

/-- JSON values, as `json.load` produces them. -/
inductive Json where
  | null
  | bool (b : Bool)
  | num (n : Int)
  | str (s : String)
  | arr (xs : List Json)
  | obj (fields : List (String × Json))

/-- The `BookConfig` NamedTuple. Python performs no type validation on
the fields, so each holds a raw JSON value. -/
structure BookConfig where
  book_path : Json
  book_name : Json
  primary_language : Json
  alternate_languages : Json
  default_author : Json
  genre : Json
  license : Json
  reference_author : Json
  keywords : Json
  cli_name : Json
  openai_url : Json
  openai_model : Json
  multiple_answer : Json

/-- The state of `storycraftr.json`: missing (`FileNotFoundError` /
`NotADirectoryError` on open), present but not valid JSON
(`json.JSONDecodeError` from `json.load`), or parsed to a JSON object. -/
inductive ConfigFile where
  | absent
  | malformed
  | parsed (fields : List (String × Json))

/-- Python `data["k"]`: `KeyError` when the key is missing. -/
def dictGet (fields : List (String × Json)) (k : String) : Except PyErr Json :=
  match fields.lookup k with
  | none => .error (.keyError k)
  | some v => .ok v

/-- Embeds `load_book_config(book_path)`. Only `FileNotFoundError` and
`NotADirectoryError` are caught (reported, `None` returned); a JSON
decode error or a missing required key propagates to the caller. The
`keywords` key alone is optional, defaulting to `""`. -/
def load_book_config (file : ConfigFile) : Except PyErr (Option BookConfig) :=
  match file with
  | .absent => .ok none
  | .malformed => .error .jsonDecode
  | .parsed data => do
      let bp ← dictGet data "book_path"
      let bn ← dictGet data "book_name"
      let pl ← dictGet data "primary_language"
      let al ← dictGet data "alternate_languages"
      let da ← dictGet data "default_author"
      let ge ← dictGet data "genre"
      let li ← dictGet data "license"
      let ra ← dictGet data "reference_author"
      let kw := match data.lookup "keywords" with
        | some v => v
        | none => Json.str ""
      let cn ← dictGet data "cli_name"
      let ou ← dictGet data "openai_url"
      let om ← dictGet data "openai_model"
      let ma ← dictGet data "multiple_answer"
      return some
        { book_path := bp, book_name := bn, primary_language := pl,
          alternate_languages := al, default_author := da, genre := ge,
          license := li, reference_author := ra, keywords := kw,
          cli_name := cn, openai_url := ou, openai_model := om,
          multiple_answer := ma }

/-- C5 (amended): an absent config file is a soft failure (`None`
returned, no exception); but a config file that fails to parse as JSON
raises `json.JSONDecodeError`, and a parsed object missing a required
key raises `KeyError` — both propagate to the caller. A fully-populated
object loads completely, with only `keywords` optional. -/
theorem config_load_semantics (data : List (String × Json)) :
    load_book_config .absent = .ok none
      ∧ load_book_config .malformed = .error .jsonDecode
      ∧ (data.lookup "book_path" = none →
          load_book_config (.parsed data) = .error (.keyError "book_path"))
      ∧ (∀ v1 v2 v3 v4 v5 v6 v7 v8 v9 v10 v11 v12 : Json,
          load_book_config (.parsed
            [("book_path", v1), ("book_name", v2), ("primary_language", v3),
              ("alternate_languages", v4), ("default_author", v5),
              ("genre", v6), ("license", v7), ("reference_author", v8),
              ("cli_name", v9), ("openai_url", v10), ("openai_model", v11),
              ("multiple_answer", v12)])
            = .ok (some
              { book_path := v1, book_name := v2, primary_language := v3,
                alternate_languages := v4, default_author := v5, genre := v6,
                license := v7, reference_author := v8,
                keywords := Json.str "", cli_name := v9, openai_url := v10,
                openai_model := v11, multiple_answer := v12 })) := by
  refine ⟨rfl, rfl, ?_, ?_⟩
  · intro h
    simp only [load_book_config, dictGet, h]
    rfl
  · intro v1 v2 v3 v4 v5 v6 v7 v8 v9 v10 v11 v12
    rfl

/-- Witness for `config_load_semantics`: the empty JSON object raises
`KeyError` on the first required key. -/
theorem config_load_semantics_witness :
    (([] : List (String × Json)).lookup "book_path" = none)
      ∧ load_book_config (.parsed []) = .error (.keyError "book_path") :=
  ⟨rfl, (config_load_semantics []).2.2.1 rfl⟩

/-- C5 counterexample: a malformed (unparseable) config file does not
yield the "no config" result — `load_book_config` propagates the decode
error instead of returning `None`; likewise an object missing a required
key raises `KeyError`. -/
theorem config_soft_fail_counterexample :
    load_book_config ConfigFile.malformed = .error .jsonDecode
      ∧ load_book_config ConfigFile.malformed ≠ .ok none
      ∧ load_book_config (.parsed []) = .error (.keyError "book_path") :=
  ⟨rfl, fun h => Except.noConfusion h, rfl⟩

/-- C1 counterexample: two chapter files whose names parse to the same
integer (`chapter-1.md` and `chapter-01.md`). The two listings are
permutations of each other — the same set of fragment files — yet the
consolidated order differs, because Python's stable sort breaks the key
tie by filesystem iteration order. -/
theorem consolidation_order_counterexample :
    (["chapter-1.md", "chapter-01.md"] : List String).Perm
        ["chapter-01.md", "chapter-1.md"]
      ∧ files_to_process ["chapter-1.md", "chapter-01.md"]
          ≠ files_to_process ["chapter-01.md", "chapter-1.md"] := by
  exact ⟨by decide, by decide⟩
